import Mathlib

/-
Verification development for the excel-extractor repository.

Shallow embedding of the data-validation list resolver, the flattening
helpers, the cell record builders, the workbook walker, the CSV exporter
and the column-letter / formula-dependency utilities, taken from
src/openpyxl_extractor.py, src/extractor.py and src/_convert_impl.py.

Python strings are modelled as List Char.  Dynamically typed Python
values (cell contents, JSON records) are modelled by the inductive type
PyVal below, with PyVal.vnone playing the role of Python None.
-/

/-- A dynamically typed Python value: None, bool, int, str, list or dict.
Floats and dates do not matter for any claim and are not modelled. -/
inductive PyVal where
  | vnone : PyVal
  | vbool : Bool → PyVal
  | vint : Int → PyVal
  | vstr : List Char → PyVal
  | vlist : List PyVal → PyVal
  | vobj : List (List Char × PyVal) → PyVal
deriving BEq

/-- Test for Python None (the expression v is None). -/
def isNoneVal : PyVal → Bool
  | PyVal.vnone => true
  | _ => false

/-- Python truthiness of a value (used by expressions such as if c.get). -/
def pyTruthy : PyVal → Bool
  | PyVal.vnone => false
  | PyVal.vbool b => b
  | PyVal.vint n => n ≠ 0
  | PyVal.vstr s => s ≠ []
  | PyVal.vlist xs => !xs.isEmpty
  | PyVal.vobj fs => !fs.isEmpty

/-- ASCII whitespace test, modelling the default str.strip of Python. -/
def pyIsSpace (c : Char) : Bool :=
  c = ' ' || c = '\t' || c = '\n' || c = '\r'

/-- Python str.strip with no argument: drop whitespace at both ends. -/
def pyStrip (s : List Char) : List Char :=
  ((s.dropWhile pyIsSpace).reverse.dropWhile pyIsSpace).reverse

/-- The apostrophe character, as stripped around quoted sheet names. -/
def squote : Char := Char.ofNat 39

/-- Python str.strip with a one-character argument: drop that character
at both ends. -/
def pyStripChar (c : Char) (s : List Char) : List Char :=
  ((s.dropWhile (· = c)).reverse.dropWhile (· = c)).reverse

/-- Python s.split(sep, 1) for a one-character separator that is known to
occur: the part before the first occurrence and the part after it. -/
def splitOnce (c : Char) (s : List Char) : List Char × List Char :=
  (s.takeWhile (· ≠ c), (s.dropWhile (· ≠ c)).drop 1)

/-- Python s.split(sep) for a one-character separator. -/
def splitOnChar (c : Char) : List Char → List (List Char)
  | [] => [[]]
  | x :: xs =>
    let r := splitOnChar c xs
    if x = c then [] :: r
    else
      match r with
      | h :: t => (x :: h) :: t
      | [] => [[x]]

/-- Uppercase ASCII letter test. -/
def isUpper (c : Char) : Bool := 'A' ≤ c && c ≤ 'Z'

/-- ASCII digit test. -/
def isDigit (c : Char) : Bool := '0' ≤ c && c ≤ '9'

/-- ASCII uppercasing of one character, modelling str.upper on the
formula strings the claims are about. -/
def upperChar (c : Char) : Char :=
  if 'a' ≤ c && c ≤ 'z' then Char.ofNat (c.toNat - 32) else c

/-- ASCII lowercasing of one character, modelling str.lower. -/
def lowerChar (c : Char) : Char :=
  if 'A' ≤ c && c ≤ 'Z' then Char.ofNat (c.toNat + 32) else c

/-- Value of a digit string, most significant first. -/
def digitsToNat (s : List Char) : Nat :=
  s.foldl (fun acc c => acc * 10 + (c.toNat - 48)) 0

/-- Value of a column-letter string in bijective base 26, the reference
inverse of the column-to-letter conversion (A=1 .. Z=26). -/
def letter_to_column (s : List Char) : Nat :=
  s.foldl (fun acc c => acc * 26 + (c.toNat - 64)) 0

/-- Column number to Excel column letters, from _column_to_letter in
src/extractor.py: repeatedly divmod(column_number - 1, 26), prepending
chr(65 + remainder). -/
def column_to_letter (n : Nat) : List Char :=
  if n = 0 then []
  else column_to_letter ((n - 1) / 26) ++ [Char.ofNat (65 + (n - 1) % 26)]
decreasing_by
  rename_i h
  have : 1 ≤ n := Nat.pos_of_ne_zero h
  omega

/-- A rectangle of 1-based cell coordinates, modelling the bounds held by
an openpyxl CellRange (min_row, min_col, max_row, max_col). -/
structure Rect where
  minRow : Nat
  minCol : Nat
  maxRow : Nat
  maxCol : Nat
deriving DecidableEq

/-- Parse one cell token such as A1 or dollar-A dollar-1 into (row, col),
modelling the coordinate parsing done by the spreadsheet library
(an external collaborator of the resolver).  Dollar signs are dropped,
then uppercase letters give the column and digits the row; anything
else fails, which models the library raising and the caller catching. -/
def parseCellToken (s : List Char) : Option (Nat × Nat) :=
  let t := s.filter (· ≠ '$')
  let letters := t.takeWhile isUpper
  let rest := t.dropWhile isUpper
  if letters = [] || rest = [] || !(rest.all isDigit) then Option.none
  else Option.some (digitsToNat rest, letter_to_column letters)

/-- Parse a range reference such as A1:B3 or a single cell A1 into a
rectangle, modelling CellRange of the spreadsheet library. -/
def parseRange (s : List Char) : Option Rect :=
  if s.contains ':' then
    let p := splitOnce ':' s
    match parseCellToken p.1, parseCellToken p.2 with
    | Option.some a, Option.some b => Option.some ⟨a.1, a.2, b.1, b.2⟩
    | _, _ => Option.none
  else
    match parseCellToken s with
    | Option.some a => Option.some ⟨a.1, a.2, a.1, a.2⟩
    | Option.none => Option.none

/-- The rows of a rectangle, in order. -/
def rectRows (r : Rect) : List Nat := List.range' r.minRow (r.maxRow + 1 - r.minRow)

/-- The columns of a rectangle, in order. -/
def rectCols (r : Rect) : List Nat := List.range' r.minCol (r.maxCol + 1 - r.minCol)

/-- A worksheet: a title, a total map from 1-based (row, column) to cell
values (PyVal.vnone for an empty cell, as the library reports None), and
the tables on the sheet as a mapping from table name to the parsed
rectangle of the table reference. -/
structure Worksheet where
  title : List Char
  cellVal : Nat → Nat → PyVal
  tables : List (List Char × Rect)

/-- A workbook for the file-parsing backend: its worksheets, and its
defined names as an exact-keyed dictionary from name to the list of
destinations (sheet title, coordinate string) that openpyxl exposes. -/
structure Workbook where
  worksheets : List Worksheet
  definedNames : List (List Char × List (List Char × List Char))

/-- From _flatten_values in src/openpyxl_extractor.py: for a list input,
list elements contribute their non-None items, while every non-list
element (None included) is appended as is; a None input gives the empty
list and any other scalar a one-element list. -/
def flatten_values : PyVal → List PyVal
  | PyVal.vnone => []
  | PyVal.vlist rs =>
    (rs.map fun r =>
      match r with
      | PyVal.vlist inner => inner.filter (fun v => !(isNoneVal v))
      | x => [x]).flatten
  | v => [v]

/-- From _flatten_to_list in src/extractor.py: as flatten_values, except
that None elements of a flat list are also dropped. -/
def flatten_to_list : PyVal → List PyVal
  | PyVal.vnone => []
  | PyVal.vlist rs =>
    (rs.map fun r =>
      match r with
      | PyVal.vlist inner => inner.filter (fun v => !(isNoneVal v))
      | PyVal.vnone => []
      | x => [x]).flatten
  | v => [v]

/-- From _values_from_range in src/openpyxl_extractor.py: parse the
reference, walk the rows of the rectangle extending a flat list with the
cell values of each row, and pass that flat list to flatten_values.
A parse failure models the exception path returning None. -/
def values_from_range (ws : Worksheet) (ref : List Char) : Option (List PyVal) :=
  match parseRange ref with
  | Option.none => Option.none
  | Option.some r =>
    let vals := ((rectRows r).map fun row => (rectCols r).map fun col => ws.cellVal row col).flatten
    Option.some (flatten_values (PyVal.vlist vals))

/-- Equality of a header cell value with a column-name string, modelling
the Python comparison col_name in headers (a str equals only a str). -/
def isStrEq (h : PyVal) (s : List Char) : Bool :=
  match h with
  | PyVal.vstr t => t == s
  | _ => false

/-- The per-sheet search loop of _resolve_table_column in
src/openpyxl_extractor.py: find a sheet holding a table of the given
name whose header row contains the column name.  The data-row fetch
iterates iter_rows with values_only, which yields one tuple per row,
and calls a value attribute on each tuple: with at least one data row
present this raises AttributeError, the per-sheet handler swallows it
and the loop continues with the next worksheet.  Only a header-only
table (no data rows below the header) runs an empty comprehension and
reaches the return, yielding the empty list.  A sheet whose table
lacks the column also falls through to the remaining sheets. -/
def table_search (tableName colName : List Char) : List Worksheet → Option (List PyVal)
  | [] => Option.none
  | ws :: rest =>
    match List.lookup tableName ws.tables with
    | Option.none => table_search tableName colName rest
    | Option.some rect =>
      let headers := (rectCols rect).map (ws.cellVal rect.minRow)
      match headers.findIdx? (fun h => isStrEq h colName) with
      | Option.some _ =>
        if rect.maxRow ≤ rect.minRow then Option.some []
        else table_search tableName colName rest
      | Option.none => table_search tableName colName rest

/-- From _resolve_table_column in src/openpyxl_extractor.py: require both
brackets, split the reference into the part before the first opening
bracket (table name) and the part between it and the first closing
bracket (column name), then search every worksheet. -/
def resolve_table_column (wb : Workbook) (ref : List Char) : Option (List PyVal) :=
  if !(ref.contains '[') || !(ref.contains ']') then Option.none
  else
    let tableName := ref.takeWhile (· ≠ '[')
    let after := (ref.dropWhile (· ≠ '[')).drop 1
    let colName := after.takeWhile (· ≠ ']')
    table_search tableName colName wb.worksheets

/-- The destination loop of _resolve_named_range in
src/openpyxl_extractor.py.  A destination whose sheet title is unknown
raises KeyError, which the surrounding handler turns into None for the
whole lookup; a destination whose range fetch yields None falls through
to the next destination. -/
def named_dest_loop (wb : Workbook) : List (List Char × List Char) → Option (List PyVal)
  | [] => Option.none
  | (title, coord) :: rest =>
    match wb.worksheets.find? (fun w => w.title == title) with
    | Option.none => Option.none
    | Option.some w =>
      match values_from_range w coord with
      | Option.some vals => Option.some vals
      | Option.none => named_dest_loop wb rest

/-- From _resolve_named_range in src/openpyxl_extractor.py: an exact
dictionary lookup of the name (defined_names.get), then the destination
loop. -/
def resolve_named_range (wb : Workbook) (name : List Char) : Option (List PyVal) :=
  match List.lookup name wb.definedNames with
  | Option.none => Option.none
  | Option.some dests => named_dest_loop wb dests

/-- The normalisation prefix of _resolve_validation_list_items (both
backends): strip whitespace, drop one leading equals sign, and drop one
pair of wrapping double quotes when the string has length at least two,
starts and ends with a double quote. -/
def normalize_source (s : List Char) : List Char :=
  let f1 := pyStrip s
  let f2 := if f1.head? = some '=' then f1.drop 1 else f1
  if f2.head? = some '"' && f2.getLast? = some '"' && decide (2 ≤ f2.length)
  then (f2.drop 1).dropLast else f2

/-- The literal-list test of _resolve_validation_list_items (both
backends): a comma present and none of exclamation mark, colon or
opening bracket. -/
def literal_test (f : List Char) : Bool :=
  f.contains ',' && !(f.contains '!') && !(f.contains ':') && !(f.contains '[')

/-- From _resolve_validation_list_items in src/openpyxl_extractor.py.
A falsy input (absent or empty) is unresolved.  Otherwise the source is
normalised and the dispatch chain runs: literal comma list; structured
table reference (attempted when both brackets are present, falling
through when it yields None); sheet range (attempted when an exclamation
mark or colon is present; an unknown sheet title raises KeyError, which
the outer handler turns into None for the whole resolution; a None range
fetch falls through); defined-name lookup; otherwise None. -/
def resolve_validation_list_items (wb : Workbook) (ws : Worksheet)
    (formula1 : Option (List Char)) : Option (List PyVal) :=
  match formula1 with
  | Option.none => Option.none
  | Option.some s =>
    if s = [] then Option.none
    else
      let f := normalize_source s
      if literal_test f then
        Option.some ((splitOnChar ',' f).map (fun it => PyVal.vstr (pyStrip it)))
      else
        match (if f.contains '[' && f.contains ']' then resolve_table_column wb f
               else Option.none) with
        | Option.some r => Option.some r
        | Option.none =>
          if f.contains '!' || f.contains ':' then
            if f.contains '!' then
              let p := splitOnce '!' f
              match wb.worksheets.find?
                  (fun w => w.title == pyStripChar squote (pyStrip p.1)) with
              | Option.none => Option.none
              | Option.some wsT =>
                match values_from_range wsT p.2 with
                | Option.some vals => Option.some vals
                | Option.none => resolve_named_range wb f
            else
              match values_from_range ws f with
              | Option.some vals => Option.some vals
              | Option.none => resolve_named_range wb f
          else resolve_named_range wb f

/-- The value of a rectangular range as the live-application library
reports it (external collaborator): a single cell gives the bare value,
a single row or column gives a flat list, and a larger rectangle gives a
list of row lists. -/
def xwRangeValue (ws : Worksheet) (r : Rect) : PyVal :=
  if r.minRow = r.maxRow ∧ r.minCol = r.maxCol then ws.cellVal r.minRow r.minCol
  else if r.minRow = r.maxRow ∨ r.minCol = r.maxCol then
    PyVal.vlist (((rectRows r).map fun row => (rectCols r).map fun col => ws.cellVal row col).flatten)
  else
    PyVal.vlist ((rectRows r).map fun row => PyVal.vlist ((rectCols r).map fun col => ws.cellVal row col))

/-- From _values_from_range_on_sheet in src/extractor.py: fetch the
range value and flatten it with _flatten_to_list; an address the
library rejects models the exception path returning None. -/
def xw_values_from_range_on_sheet (ws : Worksheet) (addr : List Char) : Option (List PyVal) :=
  match parseRange addr with
  | Option.none => Option.none
  | Option.some r => Option.some (flatten_to_list (xwRangeValue ws r))

/-- Name normalisation used by _try_resolve_named_range in
src/extractor.py: n.replace(space, empty).lower(). -/
def normName (s : List Char) : List Char :=
  (s.filter (· ≠ ' ')).map lowerChar

/-- A workbook for the live-application backend: worksheets plus the
defined names as (name, refers_to) pairs in workbook order. -/
structure XwWorkbook where
  sheets : List Worksheet
  names : List (List Char × List Char)

/-- The formula-evaluation fallback loop of _try_resolve_named_range in
src/extractor.py.  The call into the live application is modelled by the
function argument evalE, which returns the address of the range the
expression evaluates to, when any; a falsy address or a failing range
fetch falls through to the next sheet. -/
def xw_eval_loop (evalE : List Char → Worksheet → Option (List Char)) (f : List Char) :
    List Worksheet → Option (List PyVal)
  | [] => Option.none
  | w :: rest =>
    match evalE f w with
    | Option.none => xw_eval_loop evalE f rest
    | Option.some addr =>
      if addr = [] then xw_eval_loop evalE f rest
      else
        match parseRange addr with
        | Option.none => xw_eval_loop evalE f rest
        | Option.some r => Option.some (flatten_to_list (xwRangeValue w r))

/-- The name loop of _try_resolve_named_range in src/extractor.py: skip
falsy names; on the first name whose normalised form equals the
normalised target, skip it when refers_to is falsy, else drop a leading
equals sign; a range-shaped target (containing an exclamation mark or a
colon) is fetched and returned unconditionally (an unknown sheet title
raises, which the outer handler turns into None for the whole lookup);
any other target goes through the evaluation fallback, falling through
to the remaining names when that yields nothing. -/
def xw_name_loop (evalE : List Char → Worksheet → Option (List Char)) (wb : XwWorkbook)
    (cur : Worksheet) (target : List Char) :
    List (List Char × List Char) → Option (List PyVal)
  | [] => Option.none
  | (n, rt) :: rest =>
    if n = [] then xw_name_loop evalE wb cur target rest
    else if normName n = normName target then
      if rt = [] then xw_name_loop evalE wb cur target rest
      else
        let f := if rt.head? = some '=' then rt.drop 1 else rt
        if f.contains '!' || f.contains ':' then
          if f.contains '!' then
            let p := splitOnce '!' f
            match wb.sheets.find?
                (fun w => w.title == pyStripChar squote (pyStrip p.1)) with
            | Option.none => Option.none
            | Option.some sh => xw_values_from_range_on_sheet sh p.2
          else xw_values_from_range_on_sheet cur f
        else
          match xw_eval_loop evalE f wb.sheets with
          | Option.some vals => Option.some vals
          | Option.none => xw_name_loop evalE wb cur target rest
    else xw_name_loop evalE wb cur target rest

/-- From _try_resolve_named_range in src/extractor.py: strip whitespace
and wrapping apostrophes from the source, then walk the workbook names. -/
def try_resolve_named_range (evalE : List Char → Worksheet → Option (List Char))
    (wb : XwWorkbook) (cur : Worksheet) (name : List Char) : Option (List PyVal) :=
  xw_name_loop evalE wb cur (pyStripChar squote (pyStrip name)) wb.names

/-- The value/formula part of a full-detail cell record. -/
structure CellVF where
  value : PyVal
  formula : Option (List Char)

/-- From _extract_cell_full_details in src/openpyxl_extractor.py: the
formula is the cell value when that value is a string starting with an
equals sign; the value field is None when a formula is present, the raw
value otherwise. -/
def opx_cell_record (value : PyVal) : CellVF :=
  let formula : Option (List Char) :=
    match value with
    | PyVal.vstr s => if s.head? = some '=' then Option.some s else Option.none
    | _ => Option.none
  { value := if formula.isSome then PyVal.vnone else value
    formula := formula }

/-- A cell of the live-application backend: the computed value and the
formula text the library reports (empty string when falsy). -/
structure XwCellInput where
  value : PyVal
  formula : List Char

/-- From _extract_cell_full_details in src/extractor.py: the value field
carries cell.value unchanged, and the formula field carries cell.formula
unless that is falsy. -/
def xw_cell_record (c : XwCellInput) : CellVF :=
  { value := c.value
    formula := if c.formula = [] then Option.none else Option.some c.formula }

/-- The token scanner of _parse_formula_dependencies (both backends):
re.findall of one-or-more uppercase letters followed by one-or-more
digits, as a left-to-right maximal-munch scan.  The state is the current
run of letters and, when nonempty, the current run of digits following
them; a token is emitted when a digit run ends. -/
def scan_go (letters digits : List Char) : List Char → List (List Char)
  | [] => if digits = [] then [] else [letters ++ digits]
  | c :: cs =>
    if isDigit c then
      if letters = [] && digits = [] then scan_go [] [] cs
      else scan_go letters (digits ++ [c]) cs
    else if isUpper c then
      if digits = [] then scan_go (letters ++ [c]) [] cs
      else (letters ++ digits) :: scan_go [c] [] cs
    else
      if digits = [] then scan_go [] [] cs
      else (letters ++ digits) :: scan_go [] [] cs

/-- From _parse_formula_dependencies in src/openpyxl_extractor.py and
src/extractor.py: uppercase the formula, collect the pattern matches,
deduplicate (set) and sort lexically. -/
def parse_formula_dependencies (formula : List Char) : List (List Char) :=
  List.insertionSort (· ≤ ·) (scan_go [] [] (formula.map upperChar)).dedup

/-- The fixed CSV column list of write_sheet_csvs in
src/_convert_impl.py, in source order. -/
def csv_columns : List (List Char) :=
  [("address".data), ("row".data), ("column".data), ("column_letter".data),
   ("value".data), ("display_text".data), ("formula".data),
   ("format.number_format".data), ("format.font_name".data), ("format.font_size".data),
   ("format.font_bold".data), ("format.font_italic".data),
   ("hyperlink.address".data), ("note".data),
   ("data_validation.type_name".data), ("data_validation.formula1".data),
   ("data_validation.formula2".data), ("data_validation.list_items".data),
   ("format.merged".data), ("format.merge_area".data)]

/-- Python dict get with None default on a JSON record. -/
def dict_get (r : PyVal) (key : List Char) : PyVal :=
  match r with
  | PyVal.vobj fs => (List.lookup key fs).getD PyVal.vnone
  | _ => PyVal.vnone

/-- The inner walk of get_nested in src/_convert_impl.py. -/
def get_nested_go : PyVal → List (List Char) → PyVal
  | cur, [] => cur
  | PyVal.vobj fs, p :: ps => get_nested_go ((List.lookup p fs).getD PyVal.vnone) ps
  | _, _ :: _ => PyVal.vnone

/-- From get_nested in src/_convert_impl.py: split the dotted path and
walk nested dictionaries, yielding None as soon as a non-dictionary is
reached or a key is absent. -/
def get_nested (d : PyVal) (path : List Char) : PyVal :=
  get_nested_go d (splitOnChar '.' path)

/-- Join strings with a separator, modelling str.join. -/
def joinSep (sep : List Char) : List (List Char) → List Char
  | [] => []
  | [x] => x
  | x :: xs => x ++ sep ++ joinSep sep xs

/-- Python str of a scalar value.  The container cases are never
exercised by the exporter on the records of this repository (list
fields hold scalars) and carry a placeholder. -/
def pyStr : PyVal → List Char
  | PyVal.vnone => ("None".data)
  | PyVal.vbool true => ("True".data)
  | PyVal.vbool false => ("False".data)
  | PyVal.vint (Int.ofNat m) => Nat.toDigits 10 m
  | PyVal.vint (Int.negSucc m) => '-' :: Nat.toDigits 10 (m + 1)
  | PyVal.vstr s => s
  | PyVal.vlist _ => ("<list>".data)
  | PyVal.vobj _ => ("<dict>".data)

/-- The list-joining step of the row writer in write_sheet_csvs: a list
value becomes its items joined with comma-space, others pass through. -/
def render_field (v : PyVal) : PyVal :=
  match v with
  | PyVal.vlist xs => PyVal.vstr (joinSep (", ".data) (xs.map pyStr))
  | v => v

/-- One data row of write_csv in src/_convert_impl.py: per column, a
nested lookup when the column name is dotted, a flat get otherwise,
then list joining. -/
def build_row (r : PyVal) : List PyVal :=
  csv_columns.map fun col =>
    render_field (if col.contains '.' then get_nested r col else dict_get r col)

/-- The write_csv helper of src/_convert_impl.py as the list of rows it
writes: the header row (the column names) followed by one data row per
record. -/
def write_csv (rows : List PyVal) : List (List PyVal) :=
  (csv_columns.map PyVal.vstr) :: rows.map build_row

/-- From write_sheet_csvs in src/_convert_impl.py: the contents of the
all-cells CSV, the formulas-only CSV (records with a truthy formula
field) and the validations-only CSV (records with a truthy
data_validation field). -/
def write_sheet_csvs (cells : List PyVal) :
    List (List PyVal) × List (List PyVal) × List (List PyVal) :=
  (write_csv cells,
   write_csv (cells.filter fun c => pyTruthy (dict_get c ("formula".data))),
   write_csv (cells.filter fun c => pyTruthy (dict_get c ("data_validation".data))))

/-- The sheet metadata of a sheet entry.  A successful extraction fills
name and the size fields; a degraded entry carries only the name and an
error description. -/
structure SheetMeta where
  name : Option (List Char)
  error : Option (List Char)
  used_range : Option (List Char)
  rows : Option Nat
  columns : Option Nat

/-- One entry of the workbook sheets list. -/
structure SheetEntry where
  sheet : SheetMeta
  cells : List PyVal
  tables : List PyVal

/-- The workbook-level record of extract_workbook_full_details (the
names list is not needed by any claim and is omitted). -/
structure WorkbookRecord where
  sheet_count : Nat
  sheets : List SheetEntry

/-- The degraded sheet entry built in the per-sheet exception handler of
extract_workbook_full_details (both backends): the sheet name, the error
text, and empty cell and table lists. -/
def degraded_entry (title e : List Char) : SheetEntry :=
  { sheet := { name := Option.some title, error := Option.some e,
               used_range := Option.none, rows := Option.none, columns := Option.none }
    cells := []
    tables := [] }

/-- From extract_workbook_full_details (both backends): walk every
worksheet, appending the extracted entry on success and the degraded
entry on failure, and report sheet_count as the number of worksheets.
The per-sheet extraction, which may raise, is passed in as a function
returning Except. -/
def extract_workbook_full_details
    (extractSheet : Worksheet → Except (List Char) SheetEntry)
    (worksheets : List Worksheet) : WorkbookRecord :=
  { sheet_count := worksheets.length
    sheets := worksheets.map fun ws =>
      match extractSheet ws with
      | Except.ok entry => entry
      | Except.error e => degraded_entry ws.title e }

/-- A worksheet with 1 in A1 and 2 in A2, used as a concrete fixture. -/
def wsS : Worksheet :=
  ⟨("S".data),
   fun row col =>
     if row = 1 ∧ col = 1 then PyVal.vint 1
     else if row = 2 ∧ col = 1 then PyVal.vint 2
     else PyVal.vnone,
   []⟩

/-- An entirely empty worksheet. -/
def emptyWs : Worksheet := ⟨("E".data), fun _ _ => PyVal.vnone, []⟩

/-- A workbook holding only the empty worksheet and no defined names. -/
def emptyWb : Workbook := ⟨[emptyWs], []⟩

/-- A workbook with no tables whose defined-name dictionary maps the
bracketed key to a range on sheet S. -/
def wbTC : Workbook :=
  ⟨[wsS], [((("T[C]").data), [((("S").data), (("A1:A2").data))])]⟩

/-- A workbook whose only defined name is MyRange, pointing at A1:A2 of
sheet S. -/
def wbMy : Workbook :=
  ⟨[wsS], [((("MyRange").data), [((("S").data), (("A1:A2").data))])]⟩

/-- A worksheet holding a table T over A1:A2 (header cell C in A1, one
data row with 42 in A2) and a 9 in B1. -/
def wsTab : Worksheet :=
  ⟨("TS".data),
   fun row col =>
     if row = 1 ∧ col = 1 then PyVal.vstr (("C").data)
     else if row = 2 ∧ col = 1 then PyVal.vint 42
     else if row = 1 ∧ col = 2 then PyVal.vint 9
     else PyVal.vnone,
   [((("T").data), (⟨1, 1, 2, 1⟩ : Rect))]⟩

/-- A workbook where table T exists with column C and one data row, and
whose defined-name dictionary maps the bracketed key to cell B1 of the
same sheet. -/
def wbTab : Workbook :=
  ⟨[wsTab], [((("T[C]").data), [((("TS").data), (("B1").data))])]⟩

/-- A worksheet with 10 in A1, an empty A2 and 30 in A3. -/
def wsC2 : Worksheet :=
  ⟨("S2".data),
   fun row col =>
     if row = 1 ∧ col = 1 then PyVal.vint 10
     else if row = 3 ∧ col = 1 then PyVal.vint 30
     else PyVal.vnone,
   []⟩

/-- A workbook holding only wsC2. -/
def wbC2 : Workbook := ⟨[wsC2], []⟩

/-- A live-application workbook whose only defined name is My Range with
target =A1:A2. -/
def xwbMy : XwWorkbook := ⟨[wsS], [((("My Range").data), (("=A1:A2").data))]⟩

/-- An evaluation callback that never finds an address. -/
def evalNone : List Char → Worksheet → Option (List Char) := fun _ _ => Option.none

/-- A healthy worksheet fixture for the walker claims. -/
def wsGood : Worksheet := ⟨("Good".data), fun _ _ => PyVal.vnone, []⟩

/-- A worksheet fixture standing for an inaccessible sheet. -/
def wsBad : Worksheet := ⟨("Bad".data), fun _ _ => PyVal.vnone, []⟩

/-- A per-sheet extractor that fails on the sheet titled Bad and succeeds
elsewhere, simulating one inaccessible sheet. -/
def extractSheet0 : Worksheet → Except (List Char) SheetEntry := fun ws =>
  if ws.title == ("Bad".data) then Except.error ("sheet inaccessible".data)
  else Except.ok
    { sheet := { name := Option.some ws.title, error := Option.none,
                 used_range := Option.some ("A1:A1".data),
                 rows := Option.some 1, columns := Option.some 1 }
      cells := []
      tables := [] }

theorem letter_to_column_append (xs : List Char) (c : Char) :
    letter_to_column (xs ++ [c]) = letter_to_column xs * 26 + (c.toNat - 64) := by
  simp [letter_to_column, List.foldl_append]

theorem char_toNat_ofNat_add65 (r : Nat) (h : r < 26) :
    (Char.ofNat (65 + r)).toNat = 65 + r := by
  interval_cases r <;> rfl

theorem letter_round_trip : ∀ n : Nat, 1 ≤ n → letter_to_column (column_to_letter n) = n := by
  intro n
  induction n using Nat.strong_induction_on with
  | _ n ih =>
    intro h
    rw [column_to_letter, if_neg (by omega : ¬ n = 0), letter_to_column_append,
      char_toNat_ofNat_add65 _ (Nat.mod_lt _ (by norm_num))]
    by_cases hq : (n - 1) / 26 = 0
    · have h0 : column_to_letter 0 = [] := by
        rw [column_to_letter]
        rfl
      rw [hq, h0]
      simp only [letter_to_column, List.foldl_nil]
      omega
    · rw [ih ((n - 1) / 26) (by omega) (by omega)]
      omega

/-- Claim C8: column-to-letter conversion is bijective base 26 with no
zero digit, so for every n in the interval from 1 to 16384 the round
trip through the reference inverse letter_to_column returns n. -/
theorem claim_C8_round_trip (n : Nat) (h1 : 1 ≤ n) (_h2 : n ≤ 16384) :
    letter_to_column (column_to_letter n) = n :=
  letter_round_trip n h1

theorem claim_C8_round_trip_witness :
    1 ≤ 16384 ∧ 16384 ≤ 16384 ∧ letter_to_column (column_to_letter 16384) = 16384 :=
  ⟨by decide, by decide, claim_C8_round_trip 16384 (by decide) (by decide)⟩

/-- Claim C10: the workbook record reports sheet_count equal to the
length of its sheets list, since exactly one entry (successful or
degraded) is appended per worksheet. -/
theorem claim_C10_sheet_count (extractSheet : Worksheet → Except (List Char) SheetEntry)
    (worksheets : List Worksheet) :
    (extract_workbook_full_details extractSheet worksheets).sheet_count =
      (extract_workbook_full_details extractSheet worksheets).sheets.length := by
  simp [extract_workbook_full_details]

/-- Claim C9: when the extraction of the i-th worksheet raises, the
workbook record still holds one entry per worksheet, and the i-th entry
is the degraded record carrying the sheet name, the error text and
empty cell and table lists. -/
theorem claim_C9_degraded (extractSheet : Worksheet → Except (List Char) SheetEntry)
    (wss : List Worksheet) (i : Nat) (e : List Char) (h : i < wss.length)
    (he : extractSheet (wss.get ⟨i, h⟩) = Except.error e) :
    (extract_workbook_full_details extractSheet wss).sheets.length = wss.length ∧
    (extract_workbook_full_details extractSheet wss).sheets[i]? =
      Option.some (degraded_entry (wss.get ⟨i, h⟩).title e) := by
  constructor
  · simp [extract_workbook_full_details]
  · have he' : extractSheet wss[i] = Except.error e := by
      simpa using he
    simp only [extract_workbook_full_details, List.getElem?_map,
      List.getElem?_eq_getElem h, List.get_eq_getElem]
    simp [he']

theorem claim_C9_degraded_witness :
    (extract_workbook_full_details extractSheet0 [wsBad, wsGood]).sheets.length =
      ([wsBad, wsGood] : List Worksheet).length ∧
    (extract_workbook_full_details extractSheet0 [wsBad, wsGood]).sheets[0]? =
      Option.some (degraded_entry ((([wsBad, wsGood] : List Worksheet).get
        ⟨0, by decide⟩).title) ("sheet inaccessible".data)) :=
  claim_C9_degraded extractSheet0 [wsBad, wsGood] 0 ("sheet inaccessible".data)
    (by decide) (by rfl)

/-- Claim C2 (code bug): on a 1-column, 3-row range holding 10, an empty
cell and 30, the file-parsing resolver returns the list with the None
still present, because _values_from_range pre-flattens the rows so that
_flatten_values takes its scalar branch, which has no None filter; the
live-application flattener on the very same range drops the None as the
claim states. -/
theorem claim_C2_flatten_bug :
    resolve_validation_list_items wbC2 wsC2 (Option.some (("A1:A3").data)) =
      Option.some [PyVal.vint 10, PyVal.vnone, PyVal.vint 30] ∧
    flatten_to_list (xwRangeValue wsC2 ⟨1, 1, 3, 1⟩) = [PyVal.vint 10, PyVal.vint 30] :=
  ⟨rfl, rfl⟩

/-- Claim C5 counterexample: on the sheet-qualified token Sheet1!A1 the
dependency extractor yields two tokens, because upper-casing turns the
sheet name into SHEET1, which matches the letters-then-digits pattern;
the claim says only A1 is produced. -/
theorem claim_C5_counterexample :
    parse_formula_dependencies (("Sheet1!A1").data) = [(("A1").data), (("SHEET1").data)] ∧
    parse_formula_dependencies (("Sheet1!A1").data) ≠ [(("A1").data)] := by
  constructor
  · decide
  · decide

/-- Claim C5 as amended: the dependency extractor returns the maximal
letters-then-digits tokens of the upper-cased formula, deduplicated and
lexically sorted; =SUM(A1:B2)+C3 yields A1, B2, C3, and Sheet1!A1
yields A1 and SHEET1 (the upper-cased sheet-name part also matches). -/
theorem claim_C5_tokens :
    (∀ f : List Char,
      List.Sorted (· ≤ ·) (parse_formula_dependencies f) ∧
      (parse_formula_dependencies f).Nodup ∧
      ∀ t, t ∈ parse_formula_dependencies f ↔ t ∈ scan_go [] [] (f.map upperChar)) ∧
    parse_formula_dependencies (("=SUM(A1:B2)+C3").data) =
      [(("A1").data), (("B2").data), (("C3").data)] ∧
    parse_formula_dependencies (("Sheet1!A1").data) = [(("A1").data), (("SHEET1").data)] := by
  refine ⟨fun f => ⟨List.sorted_insertionSort _ _, ?_, fun t => ?_⟩, by decide, by decide⟩
  · exact ((List.perm_insertionSort _ _).nodup_iff).mpr (List.nodup_dedup _)
  · unfold parse_formula_dependencies
    rw [(List.perm_insertionSort _ _).mem_iff, List.mem_dedup]

/-- Claim C6 counterexample: in the live-application backend a formula
cell record carries the computed value and the formula text at the same
time, both non-null, against the claim that exactly one is populated. -/
theorem claim_C6_counterexample :
    (xw_cell_record ⟨PyVal.vint 5, ("=2+3").data⟩).value = PyVal.vint 5 ∧
    (xw_cell_record ⟨PyVal.vint 5, ("=2+3").data⟩).formula = Option.some (("=2+3").data) ∧
    ¬ ((xw_cell_record ⟨PyVal.vint 5, ("=2+3").data⟩).value = PyVal.vnone) :=
  ⟨rfl, rfl, fun h => PyVal.noConfusion h⟩

/-- Claim C6 as amended: the file-parsing backend suppresses the value
field exactly when a formula is present (never are both non-null, and a
formula-free record carries the raw value); the live-application backend
always carries the raw cell value, so a cell with a non-empty formula
text populates both fields. -/
theorem claim_C6_exactly_one (v : PyVal) (c : XwCellInput) (hc : c.formula ≠ []) :
    ¬ ((opx_cell_record v).value ≠ PyVal.vnone ∧ (opx_cell_record v).formula ≠ Option.none) ∧
    ((opx_cell_record v).formula = Option.none → (opx_cell_record v).value = v) ∧
    (xw_cell_record c).value = c.value ∧
    (xw_cell_record c).formula = Option.some c.formula := by
  refine ⟨?_, ?_, rfl, by simp [xw_cell_record, hc]⟩
  · rintro ⟨hv, hf⟩
    cases v <;> simp [opx_cell_record] at hv hf
    rename_i s
    by_cases hh : s.head? = some '=' <;> simp [hh] at hv hf
  · intro hf
    cases v <;> simp [opx_cell_record] at hf ⊢
    rename_i s
    by_cases hh : s.head? = some '=' <;> simp [hh] at hf ⊢

/-- Claim C6 witness: the amended statement at a formula-holding string
value for the file-parsing backend and a concrete live-application cell. -/
theorem claim_C6_exactly_one_witness :
    ¬ ((opx_cell_record (PyVal.vstr (("=A1").data))).value ≠ PyVal.vnone ∧
       (opx_cell_record (PyVal.vstr (("=A1").data))).formula ≠ Option.none) ∧
    ((opx_cell_record (PyVal.vstr (("=A1").data))).formula = Option.none →
       (opx_cell_record (PyVal.vstr (("=A1").data))).value = PyVal.vstr (("=A1").data)) ∧
    (xw_cell_record ⟨PyVal.vint 7, ("=1+6").data⟩).value = PyVal.vint 7 ∧
    (xw_cell_record ⟨PyVal.vint 7, ("=1+6").data⟩).formula = Option.some (("=1+6").data) :=
  claim_C6_exactly_one (PyVal.vstr (("=A1").data)) ⟨PyVal.vint 7, ("=1+6").data⟩ (by decide)

/-- Claim C7 counterexample: the fixed CSV column list has 20 entries,
not the 19 the claim asserts. -/
theorem claim_C7_counterexample : csv_columns.length = 20 ∧ ¬ (csv_columns.length = 19) := by
  constructor
  · decide
  · decide

/-- Claim C7 as amended: every CSV produced by the per-sheet exporter
(all cells, formulas only, validations only) starts with the fixed
header of the 20 column names in source order, each data row is built
by looking every column up in the record (through nested fields for a
dotted name) with list values joined with comma-space, and so has
exactly one entry per column in that order; the concrete conjuncts show
the join and a dotted lookup. -/
theorem claim_C7_csv_shape :
    (∀ cells : List PyVal,
      (write_sheet_csvs cells).1.head? = Option.some (csv_columns.map PyVal.vstr) ∧
      (write_sheet_csvs cells).2.1.head? = Option.some (csv_columns.map PyVal.vstr) ∧
      (write_sheet_csvs cells).2.2.head? = Option.some (csv_columns.map PyVal.vstr) ∧
      (write_sheet_csvs cells).1 = (csv_columns.map PyVal.vstr) :: cells.map build_row) ∧
    (∀ r : PyVal,
      (build_row r).length = csv_columns.length ∧
      ∀ i : Nat, (build_row r)[i]? = Option.map
        (fun col => render_field (if col.contains '.' then get_nested r col else dict_get r col))
        csv_columns[i]?) ∧
    render_field (PyVal.vlist [PyVal.vstr (("A").data), PyVal.vstr (("B").data)]) =
      PyVal.vstr (("A, B").data) ∧
    get_nested (PyVal.vobj [((("format").data),
        PyVal.vobj [((("merged").data), PyVal.vbool true)])]) (("format.merged").data) =
      PyVal.vbool true := by
  refine ⟨fun cells => ⟨rfl, rfl, rfl, rfl⟩, fun r => ⟨?_, fun i => ?_⟩, rfl, rfl⟩
  · simp [build_row]
  · simp [build_row, List.getElem?_map]

/-- Claim C1 counterexample: a bracketed source whose table is not found
is not left unresolved; with no tables but a defined name spelled
exactly like the source, resolution falls through to the named-range
path and succeeds. -/
theorem claim_C1_counterexample :
    resolve_validation_list_items wbTC wsS (Option.some (("T[C]").data)) =
      Option.some [PyVal.vint 1, PyVal.vint 2] ∧
    resolve_validation_list_items wbTC wsS (Option.some (("T[C]").data)) ≠ Option.none :=
  ⟨rfl, fun h => Option.noConfusion h⟩

/-- Claim C1 as amended: a source containing both brackets always takes
the table-column path first (a comma-and-bracket source is TableColumn,
not Literal, shown by the closed conjunct resolving to nothing rather
than to the comma split on an empty workbook); whatever value the table
attempt yields is returned, but in the file-parsing backend that
attempt succeeds only for a header-only table (empty list): a found
table and column with a data row present hits the failing value fetch
and the search continues past that sheet; and when the whole attempt
yields nothing, resolution falls through, reaching the named-range path
when the source holds no exclamation mark or colon — it does not stop
at unresolved. -/
theorem claim_C1_table_priority (wb : Workbook) (ws : Worksheet) (s : List Char)
    (hs : s ≠ [])
    (hb1 : (normalize_source s).contains '[' = true)
    (hb2 : (normalize_source s).contains ']' = true) :
    (∀ r, resolve_table_column wb (normalize_source s) = Option.some r →
        resolve_validation_list_items wb ws (Option.some s) = Option.some r) ∧
    (resolve_table_column wb (normalize_source s) = Option.none →
      (normalize_source s).contains '!' = false →
      (normalize_source s).contains ':' = false →
      resolve_validation_list_items wb ws (Option.some s) =
        resolve_named_range wb (normalize_source s)) ∧
    resolve_validation_list_items emptyWb emptyWs (Option.some (("A,B[C]").data)) =
      Option.none ∧
    (∀ tn cn : List Char, ∀ rect : Rect, ∀ i : Nat, ∀ w : Worksheet,
      ∀ rest : List Worksheet,
      List.lookup tn w.tables = Option.some rect →
      (((rectCols rect).map (w.cellVal rect.minRow)).findIdx?
        fun h => isStrEq h cn) = Option.some i →
      rect.minRow < rect.maxRow →
      table_search tn cn (w :: rest) = table_search tn cn rest) ∧
    (∀ tn cn : List Char, ∀ rect : Rect, ∀ i : Nat, ∀ w : Worksheet,
      ∀ rest : List Worksheet,
      List.lookup tn w.tables = Option.some rect →
      (((rectCols rect).map (w.cellVal rect.minRow)).findIdx?
        fun h => isStrEq h cn) = Option.some i →
      rect.maxRow ≤ rect.minRow →
      table_search tn cn (w :: rest) = Option.some []) := by
  have hlit : literal_test (normalize_source s) = false := by
    unfold literal_test
    rw [hb1]
    simp
  have hb1m : '[' ∈ normalize_source s := by simpa using hb1
  have hb2m : ']' ∈ normalize_source s := by simpa using hb2
  refine ⟨fun r hr => ?_, fun hr h1 h2 => ?_, rfl, ?_, ?_⟩
  · unfold resolve_validation_list_items
    simp [hs, hlit, hb1m, hb2m, hr]
  · have h1m : '!' ∉ normalize_source s := by simpa using h1
    have h2m : ':' ∉ normalize_source s := by simpa using h2
    unfold resolve_validation_list_items
    simp [hs, hlit, hb1m, hb2m, hr, h1m, h2m]
  · intro tn cn rect i w rest hlook hfind hlt
    have hnle : ¬ (rect.maxRow ≤ rect.minRow) := by omega
    simp [table_search, hlook, hfind, hnle]
  · intro tn cn rect i w rest hlook hfind hle
    simp [table_search, hlook, hfind, hle]

/-- Claim C1 witness: the amended statement instantiated on a workbook
whose table T with column C holds a data row — the table attempt
continues past that sheet (the failing value fetch), so the resolver
falls through to the named-range lookup, where the defined name spelled
like the source resolves. -/
theorem claim_C1_table_priority_witness :
    (("T[C]").data ≠ []) ∧
    table_search (("T").data) (("C").data) [wsTab] =
      table_search (("T").data) (("C").data) [] ∧
    resolve_validation_list_items wbTab wsTab (Option.some (("T[C]").data)) =
      resolve_named_range wbTab (normalize_source (("T[C]").data)) ∧
    resolve_named_range wbTab (normalize_source (("T[C]").data)) =
      Option.some [PyVal.vint 9] :=
  ⟨by decide,
   (claim_C1_table_priority wbTab wsTab (("T[C]").data) (by decide) (by decide)
     (by decide)).2.2.2.1 (("T").data) (("C").data) ⟨1, 1, 2, 1⟩ 0 wsTab [] rfl rfl
     (by decide),
   (claim_C1_table_priority wbTab wsTab (("T[C]").data) (by decide) (by decide)
     (by decide)).2.1 rfl rfl rfl,
   rfl⟩

/-- Claim C3 counterexample: a quote-wrapped source with no comma is not
treated as a literal one-item list; the quotes are merely stripped and,
with nothing else matching, resolution ends unresolved. -/
theorem claim_C3_counterexample :
    resolve_validation_list_items emptyWb emptyWs (Option.some (("\"Red\"").data)) =
      Option.none ∧
    resolve_validation_list_items emptyWb emptyWs (Option.some (("\"Red\"").data)) ≠
      Option.some [PyVal.vstr (("Red").data)] :=
  ⟨rfl, fun h => Option.noConfusion h⟩

/-- Claim C3 as amended: quote wrapping is only a normalisation step;
a source classifies as Literal exactly when, after stripping the leading
equals sign and wrapping quotes, it contains a comma and none of the
exclamation mark, colon or opening bracket, and then resolves to the
comma split with every item trimmed, order preserved. -/
theorem claim_C3_literal (wb : Workbook) (ws : Worksheet) (s : List Char)
    (hs : s ≠ []) (hl : literal_test (normalize_source s) = true) :
    resolve_validation_list_items wb ws (Option.some s) =
      Option.some ((splitOnChar ',' (normalize_source s)).map
        fun it => PyVal.vstr (pyStrip it)) := by
  unfold resolve_validation_list_items
  simp [hs, hl]

/-- Claim C3 witness: the source X, Y , Z resolves to the trimmed items
X, Y, Z in order. -/
theorem claim_C3_literal_witness :
    (("X, Y , Z").data ≠ []) ∧
    resolve_validation_list_items emptyWb emptyWs (Option.some (("X, Y , Z").data)) =
      Option.some [PyVal.vstr (("X").data), PyVal.vstr (("Y").data), PyVal.vstr (("Z").data)] :=
  ⟨by decide,
   (claim_C3_literal emptyWb emptyWs (("X, Y , Z").data) (by decide) (by decide)).trans rfl⟩

/-- Claim C4 counterexample: in the file-parsing backend the defined-name
lookup is an exact dictionary access, so the source myrange does not
resolve the defined name MyRange even though the two agree up to case;
the second conjunct shows the very same name resolves under its exact
spelling, so only the matching rule is at fault. -/
theorem claim_C4_counterexample :
    resolve_validation_list_items wbMy wsS (Option.some (("myrange").data)) = Option.none ∧
    resolve_named_range wbMy (("MyRange").data) =
      Option.some [PyVal.vint 1, PyVal.vint 2] :=
  ⟨rfl, rfl⟩

/-- Claim C4 as amended: only the live-application backend matches
defined names case-insensitively ignoring internal spaces — a first
workbook name whose normalised form equals the normalised source is
taken, and a range-shaped target is fetched and returned; the
file-parsing backend performs an exact lookup, returning unresolved
whenever the exact key is absent. -/
theorem claim_C4_name_matching (wb : Workbook) (name : List Char)
    (hx : List.lookup name wb.definedNames = Option.none)
    (evalE : List Char → Worksheet → Option (List Char))
    (xwb : XwWorkbook) (cur : Worksheet) (src n rt : List Char)
    (rest : List (List Char × List Char))
    (hn : xwb.names = (n, rt) :: rest) (hne : n ≠ [])
    (hmatch : normName n = normName (pyStripChar squote (pyStrip src)))
    (hrt : rt ≠ [])
    (hbang : (if rt.head? = some '=' then rt.drop 1 else rt).contains '!' = false)
    (hcolon : (if rt.head? = some '=' then rt.drop 1 else rt).contains ':' = true) :
    resolve_named_range wb name = Option.none ∧
    try_resolve_named_range evalE xwb cur src =
      xw_values_from_range_on_sheet cur (if rt.head? = some '=' then rt.drop 1 else rt) := by
  constructor
  · unfold resolve_named_range
    rw [hx]
  · have hbangm : '!' ∉ (if rt.head? = some '=' then rt.drop 1 else rt) := by
      simpa using hbang
    have hcolonm : ':' ∈ (if rt.head? = some '=' then rt.drop 1 else rt) := by
      simpa using hcolon
    unfold try_resolve_named_range
    rw [hn]
    unfold xw_name_loop
    simp only [List.drop_one] at hbangm hcolonm
    simp [hne, hmatch, hrt, hbangm, hcolonm]

/-- Claim C4 witness: the amended statement instantiated on a workbook
whose defined name My Range is found from the source myrange by the
live-application matching, resolving to the values of A1:A2, while the
exact lookup of the file-parsing backend misses it. -/
theorem claim_C4_name_matching_witness :
    resolve_named_range wbMy (("myrange").data) = Option.none ∧
    try_resolve_named_range evalNone xwbMy wsS (("myrange").data) =
      Option.some [PyVal.vint 1, PyVal.vint 2] := by
  have h := claim_C4_name_matching wbMy (("myrange").data) (by decide) evalNone xwbMy wsS
    (("myrange").data) (("My Range").data) (("=A1:A2").data) [] rfl (by decide) (by decide)
    (by decide) (by decide) (by decide)
  exact ⟨h.1, h.2.trans rfl⟩
